import Mathlib

/-!
Verification development for the CNN-colorization repository.

The repository trains a convolutional network that classifies every pixel of a
grayscale image into one of 313 quantized color bins.  This file gives a shallow
embedding of the parts of the code that the verified properties are about:

* `src/colorizers/modified.py` — the `ModifiedColorizer` network: its block
  topology (channel counts and spatial-shape semantics of every convolution)
  and the constructor's accesses into the per-block dropout list;
* `src/train.py` — the `eval` routine and the `train` loop (batch iteration,
  per-batch logging, per-epoch evaluation, best-model tracking), the
  `TrainingLogger` append-only sequences, and the `preprocess_img` helper.

Machine floats are modelled by exact rationals (`ℚ`) and, for the softmax,
by real numbers; Python exceptions are modelled by `Except`.
-/

namespace Colorization

/-! ### Spatial-shape semantics of convolution layers

PyTorch shape arithmetic for `nn.Conv2d` and `nn.ConvTranspose2d`, per spatial
dimension (sizes are naturals; every size reached in this development is ≥ 1,
where the truncated subtractions below agree with the PyTorch integer formulas).
-/

/-- Output size of a `Conv2d` along one spatial dimension:
`⌊(H + 2·pad - dil·(k-1) - 1) / s⌋ + 1`. -/
def conv2dOut (H pad dil k s : ℕ) : ℕ :=
  (H + 2 * pad - dil * (k - 1) - 1) / s + 1

/-- Output size of a `ConvTranspose2d` along one spatial dimension:
`(H-1)·s + dil·(k-1) + 1 - 2·pad` (terms reordered so that truncated natural
subtraction agrees with the integer value whenever that value is ≥ 0). -/
def convT2dOut (H pad dil k s : ℕ) : ℕ :=
  (H - 1) * s + dil * (k - 1) + 1 - 2 * pad

/-- One convolutional layer of a block: channel counts and the parameters that
determine its output shape.  Normalization, activation and dropout sublayers
of a block are pointwise and never change shape, so they do not appear in the
shape model. -/
structure LayerSpec where
  inC : ℕ
  outC : ℕ
  k : ℕ
  s : ℕ
  dil : ℕ
  pad : ℕ
  transposed : Bool
deriving DecidableEq

/-- Spatial-size action of one layer. -/
def LayerSpec.spatial (l : LayerSpec) (H : ℕ) : ℕ :=
  match l.transposed with
  | true => convT2dOut H l.pad l.dil l.k l.s
  | false => conv2dOut H l.pad l.dil l.k l.s

/-- A per-layer parameter of `build_basic_block`: either a scalar broadcast to
every layer of the block or a list applied positionally. -/
inductive ParamSpec where
  | scalar (v : ℕ)
  | list (vs : List ℕ)

/-- Value of the parameter for the current (first remaining) layer. -/
def ParamSpec.get : ParamSpec → ℕ
  | .scalar v => v
  | .list vs => vs.getD 0 0

/-- Drop the entry consumed by the current layer. -/
def ParamSpec.shift : ParamSpec → ParamSpec
  | .scalar v => .scalar v
  | .list vs => .list vs.tail

/-- Modelled from the spec: `build_basic_block` lives in
`src/colorizers/layers.py`, which is not among the provided sources; only its
call sites in `src/colorizers/modified.py` are.  Per spec §4.1 a channel list
of length k produces k-1 convolutional layers chaining the channel counts,
scalars broadcast and lists apply positionally; per §4.2 the kernel-3 stride-1
layers preserve spatial resolution (padding 1), the dilated blocks use
"dilation 2 + matching padding 2", and the transposed convolutions (kernel 4,
stride 2) upsample by exactly ×2 (padding 1) — so the default padding is 1.
The convolution variant list marks which layers are transposed. -/
def build_basic_block (channels : List ℕ)
    (kernel_size stride dilation padding : ParamSpec) (conv_type : List Bool) :
    List LayerSpec :=
  match channels with
  | c₁ :: c₂ :: rest =>
      { inC := c₁, outC := c₂, k := kernel_size.get, s := stride.get,
        dil := dilation.get, pad := padding.get,
        transposed := conv_type.getD 0 false } ::
      build_basic_block (c₂ :: rest) kernel_size.shift stride.shift
        dilation.shift padding.shift conv_type.tail
  | _ => []

/-- Blocks `model1` … `model7` of `ModifiedColorizer.__init__`
(src/colorizers/modified.py lines 14-29), channel multiplier `m`. -/
def preBlocks (m : ℕ) : List LayerSpec :=
  build_basic_block [1, 64 * m, 64 * m]
    (.scalar 3) (.list [1, 2]) (.scalar 1) (.scalar 1) [] ++
  build_basic_block [64 * m, 128 * m, 128 * m]
    (.scalar 3) (.list [1, 2]) (.scalar 1) (.scalar 1) [] ++
  build_basic_block [128 * m, 256 * m, 256 * m, 256 * m]
    (.scalar 3) (.list [1, 1, 2]) (.scalar 1) (.scalar 1) [] ++
  build_basic_block [256 * m, 512 * m, 512 * m, 512 * m]
    (.scalar 3) (.scalar 1) (.scalar 1) (.scalar 1) [] ++
  build_basic_block [512 * m, 512 * m, 512 * m, 512 * m]
    (.scalar 3) (.scalar 1) (.scalar 2) (.scalar 2) [] ++
  build_basic_block [512 * m, 512 * m, 512 * m, 512 * m]
    (.scalar 3) (.scalar 1) (.scalar 2) (.scalar 2) [] ++
  build_basic_block [512 * m, 512 * m, 512 * m, 512 * m]
    (.scalar 3) (.scalar 1) (.scalar 1) (.scalar 1) []

/-- The `numExtraConv2DLayers`-many extra bottleneck blocks
(src/colorizers/modified.py lines 31-36), applied after `model7`. -/
def extraLayers (m N : ℕ) : List LayerSpec :=
  (List.replicate N (build_basic_block [512 * m, 512 * m, 512 * m, 512 * m]
    (.scalar 3) (.scalar 1) (.scalar 1) (.scalar 1) [])).flatten

/-- Blocks `model8` … `model10` plus the final 1×1 classification convolution
appended onto `model10` (src/colorizers/modified.py lines 38-53). -/
def postBlocks (m : ℕ) : List LayerSpec :=
  build_basic_block [512 * m, 256 * m, 256 * m, 256 * m]
    (.list [4, 3, 3]) (.list [2, 1, 1]) (.scalar 1) (.scalar 1)
    [true, false, false] ++
  build_basic_block [256 * m, 128 * m, 128 * m, 128 * m]
    (.list [4, 3, 3]) (.list [2, 1, 1]) (.scalar 1) (.scalar 1)
    [true, false, false] ++
  build_basic_block [128 * m, 64 * m, 64 * m, 64 * m]
    (.list [4, 3, 3]) (.list [2, 1, 1]) (.scalar 1) (.scalar 1)
    [true, false, false] ++
  [{ inC := 64 * m, outC := 313, k := 1, s := 1, dil := 1, pad := 0,
     transposed := false }]

/-- The full layer sequence traversed by `ModifiedColorizer.forward`
(src/colorizers/modified.py lines 56-73): `model1`…`model7`, then the extra
blocks, then `model8`…`model10` with the appended 313-channel convolution. -/
def netLayers (m N : ℕ) : List LayerSpec :=
  preBlocks m ++ extraLayers m N ++ postBlocks m

/-- Spatial size of the forward pass output along one dimension, for input
size `H` (height and width propagate independently). -/
def netSpatial (m N H : ℕ) : ℕ :=
  (netLayers m N).foldl (fun a l => l.spatial a) H

/-- Channel count of the forward pass output: the `outC` of the last layer
(the input has 1 channel). -/
def netOutChannels (m N : ℕ) : ℕ :=
  (netLayers m N).foldl (fun _ l => l.outC) 1

/-! ### The `ModifiedColorizer` constructor (src/colorizers/modified.py 7-54)

The constructor reads `config.dropoutLayers[0]` … `config.dropoutLayers[9]`
(one entry per dropout-configurable block) while building the blocks; a Python
list access out of range raises `IndexError` at construction time.
-/

/-- The configuration object consumed by `ModifiedColorizer.__init__`. -/
structure ModelConfig where
  dropoutLayers : List ℚ
  numExtraConv2DLayers : ℕ
  channelMultiplier : ℕ

/-- The exception raised by an out-of-range Python list access. -/
inductive InitError where
  | indexError
deriving DecidableEq

/-- Result of a successful construction: the layer stack together with the ten
dropout probabilities that were read from the configuration. -/
structure ColorizerNet where
  layers : List LayerSpec
  dropouts : List ℚ

/-- Python list indexing `l[i]`: the value, or `IndexError` when out of range. -/
def getItem (l : List ℚ) (i : ℕ) : Except InitError ℚ :=
  match l.get? i with
  | some v => .ok v
  | none => .error .indexError

/-- `ModifiedColorizer.__init__`: reads `dropoutLayers[0]` … `dropoutLayers[9]`
in source order while assembling the blocks (`model1`…`model7` use indices 0-6,
`model8`…`model10` use 7-9; the extra blocks read no dropout entry), then owns
the assembled layer stack.  No length validation is performed anywhere. -/
def ModifiedColorizer_init (config : ModelConfig) : Except InitError ColorizerNet :=
  (getItem config.dropoutLayers 0).bind fun d0 =>
  (getItem config.dropoutLayers 1).bind fun d1 =>
  (getItem config.dropoutLayers 2).bind fun d2 =>
  (getItem config.dropoutLayers 3).bind fun d3 =>
  (getItem config.dropoutLayers 4).bind fun d4 =>
  (getItem config.dropoutLayers 5).bind fun d5 =>
  (getItem config.dropoutLayers 6).bind fun d6 =>
  (getItem config.dropoutLayers 7).bind fun d7 =>
  (getItem config.dropoutLayers 8).bind fun d8 =>
  (getItem config.dropoutLayers 9).bind fun d9 =>
  .ok { layers := netLayers config.channelMultiplier config.numExtraConv2DLayers,
        dropouts := [d0, d1, d2, d3, d4, d5, d6, d7, d8, d9] }

/-- `Except.isOk` without relying on library helpers. -/
def isOk {ε α : Type} : Except ε α → Bool
  | .ok _ => true
  | .error _ => false

/-! ### The final softmax (src/colorizers/modified.py lines 54, 72-73)

`nn.Softmax(dim=1)` applied to the 313-channel scores acts independently at
every spatial location; at one location it maps the score vector
`x : Fin 313 → ℝ` to `fun i => exp (x i) / ∑ j, exp (x j)`.  Floating-point
arithmetic is idealized by real arithmetic. -/

/-- The per-pixel action of `self.softmax = nn.Softmax(dim=1)` on the
313-channel score vector of one spatial location. -/
noncomputable def softmax (x : Fin 313 → ℝ) : Fin 313 → ℝ :=
  fun i => Real.exp (x i) / ∑ j, Real.exp (x j)

/-! ### The training loop and evaluation routine (src/train.py 117-187)

The embedding abstracts the network+criterion into an environment:
`lossFn mode params batch` is the scalar `criterion(net(inputs), labels).item()`
computed with the network in the given mode (`true` = training mode), and
`stepFn mode params batch` is the effect of `loss.backward(); optimizer.step()`
on the parameters.  `bsize` is `rs_l.shape[0]`.  Losses are exact rationals.
-/

/-- The data the training loop reads from the network, optimizer and criterion. -/
structure TrainEnv (P B : Type) where
  lossFn : Bool → P → B → ℚ
  stepFn : Bool → P → B → P
  bsize : B → ℕ

/-- Observable state of the `nn.Module`: its parameters and its mode flag
(`training = true` after `net.train()`, `false` after `net.eval()`). -/
structure NetState (P : Type) where
  params : P
  training : Bool

/-- Python exceptions that `train`/`eval` can raise: `ZeroDivisionError` from
`running_loss/len(dataloader)` on an empty source, and `NameError` from the
post-loop uses of the loop variable `i` when the train source is empty. -/
inductive RunError where
  | zeroDivision
  | nameError
deriving DecidableEq

/-- The `eval` routine (src/train.py 117-136): calls `net.eval()`, accumulates
`loss.item()/batch_size` over every batch under `torch.no_grad()` (so the
parameters are never written), and returns `running_loss/len(dataloader)` —
raising `ZeroDivisionError` when the source is empty.  The returned state is
the network as `eval` leaves it: same parameters, `training = false`. -/
def eval {P B : Type} (env : TrainEnv P B) (net : NetState P) (data : List B) :
    Except RunError ℚ × NetState P :=
  let net' : NetState P := { net with training := false }
  let running : ℚ :=
    data.foldl (fun acc b => acc + env.lossFn net'.training net'.params b / (env.bsize b : ℚ)) 0
  (if data.length = 0 then .error .zeroDivision else .ok (running / (data.length : ℚ)), net')

/-- The inner batch loop of one epoch (src/train.py 160-176): for the `i`-th
batch (0-based, from `enumerate`), the loss is computed from the current
parameters, the optimizer steps, and — when a logger was passed — the
per-example loss `loss.item()/batch_size` is appended keyed by `i+1`.
Returns the updated parameters and the appended `(key, loss)` records. -/
def runBatches {P B : Type} (env : TrainEnv P B) (mode : Bool) (hl : Bool) :
    P → ℕ → List B → P × List (ℕ × ℚ)
  | p, _, [] => (p, [])
  | p, i, b :: bs =>
      let iterLoss := env.lossFn mode p b / (env.bsize b : ℚ)
      let p' := env.stepFn mode p b
      let rest := runBatches env mode hl p' (i + 1) bs
      (rest.1, (if hl then [(i + 1, iterLoss)] else []) ++ rest.2)

/-- State threaded through the epoch loop of `train`: the network, the
best-loss tracker (`none` models the initial `np.inf`), whether
`best_model = net.state_dict()` was ever executed, the two `TrainingLogger`
sequences, and a ghost trace recording `net.training` as observed at the start
of each epoch's batch loop (pure observation, never read by the loop). -/
structure LoopState (P : Type) where
  net : NetState P
  best : Option ℚ
  bestSet : Bool
  trainLog : List (ℕ × ℚ)
  evalLog : List (ℕ × ℚ)
  modes : List Bool

/-- The comparison `eval_loss < best_eval_loss` (src/train.py 183): `none`
models the initial `np.inf`, which every finite loss is strictly below. -/
def improvesOn (best : Option ℚ) (el : ℚ) : Bool :=
  match best with
  | none => true
  | some b => decide (el < b)

/-- One iteration of `for epoch in range(n_epochs)` (src/train.py 152-185):
run every train batch (in whatever mode the network currently is — the loop
never calls `net.train()` again), then `eval` on the held-out source; after a
successful `eval`, the post-loop statements use the loop variable `i`
(`logger.log_eval_loss(i+1, …)` and the progress-bar update), which raises
`NameError` when the train source yielded no batch; otherwise the eval loss is
logged under key `i+1 = len(trainloader)` and the best tracker is updated when
`eval_loss < best_eval_loss` (with `best_eval_loss` initially `np.inf`). -/
def runEpoch {P B : Type} (env : TrainEnv P B) (td ed : List B) (hl : Bool)
    (st : LoopState P) : Except RunError (LoopState P) :=
  let mB := st.net.training
  let r := runBatches env mB hl st.net.params 0 td
  let e := eval env ⟨r.1, mB⟩ ed
  match e.1 with
  | .error err => .error err
  | .ok el =>
    if td.length = 0 then .error .nameError
    else
      let improves : Bool := improvesOn st.best el
      .ok { net := e.2,
            best := if improves then some el else st.best,
            bestSet := st.bestSet || improves,
            trainLog := st.trainLog ++ r.2,
            evalLog := st.evalLog ++ (if hl then [(td.length, el)] else []),
            modes := st.modes ++ [mB] }

/-- The epoch loop, first epoch first; an exception propagates to the caller. -/
def runEpochs {P B : Type} (env : TrainEnv P B) (td ed : List B) (hl : Bool) :
    ℕ → LoopState P → Except RunError (LoopState P)
  | 0, st => .ok st
  | n + 1, st =>
    match runEpoch env td ed hl st with
    | .error e => .error e
    | .ok st' => runEpochs env td ed hl n st'

/-- What the caller of `train` observes when it returns: the pair
`(best_eval_loss, best_model)` plus the logger contents, the ghost mode trace
and the network's (final) parameters. -/
structure TrainResult (P : Type) where
  bestEvalLoss : Option ℚ
  bestModel : Option P
  trainLog : List (ℕ × ℚ)
  evalLog : List (ℕ × ℚ)
  epochModes : List Bool
  finalParams : P

/-- The `train` function (src/train.py 139-187).  `net.train()` runs once
before the epoch loop (initial mode `true`).  `best_model = net.state_dict()`
stores references to the live parameter tensors, which `optimizer.step()`
mutates in place; so the dictionary the caller receives holds the values the
parameters have when `train` returns — modelled by dereferencing at return
time: `bestModel = some finalParams` when the assignment ever ran, `none`
otherwise.  `bestEvalLoss = none` models the initial `np.inf`. -/
def train {P B : Type} (env : TrainEnv P B) (td ed : List B) (hl : Bool)
    (n_epochs : ℕ) (p0 : P) : Except RunError (TrainResult P) :=
  match runEpochs env td ed hl n_epochs ⟨⟨p0, true⟩, none, false, [], [], []⟩ with
  | .error e => .error e
  | .ok st => .ok ⟨st.best, if st.bestSet then some st.net.params else none,
                   st.trainLog, st.evalLog, st.modes, st.net.params⟩

/-- A small concrete environment for evaluating the loop: integer parameter,
unit batches of batch size 1, `lossFn` returning the current parameter value
and `stepFn` incrementing it (mode-independent). -/
def env1 : TrainEnv ℤ Unit :=
  ⟨fun _ p _ => (p : ℚ), fun _ p _ => p + 1, fun _ => 1⟩

/-! ### `preprocess_img` (src/train.py 23-47)

The tensors and colorspace conversions are abstract: `rgb2lab`, `resize` and
the channel projections are parameters of the embedding.  The helper computes
`tens_rs_ab` from the Lab conversion of the resized image and then immediately
rebinds it to `torch.randint(0, 313, (256, 256))` — exactly as the source does
— before returning the four tensors. -/

/-- `preprocess_img`: returns `(tens_orig_l, tens_orig_ab, tens_rs_l,
tens_rs_ab)`; the last component is the `torch.randint` draw that overwrites
the resized chrominance. -/
def preprocess_img {Img Lab Chan : Type} (rgb2lab : Img → Lab) (resize : Img → Img)
    (lChannel abChannel : Lab → Chan) (randint : Chan) (img_rgb_orig : Img) :
    Chan × Chan × Chan × Chan :=
  let img_rgb_rs := resize img_rgb_orig
  let img_lab_orig := rgb2lab img_rgb_orig
  let img_lab_rs := rgb2lab img_rgb_rs
  let tens_orig_l := lChannel img_lab_orig
  let tens_orig_ab := abChannel img_lab_orig
  let tens_rs_l := lChannel img_lab_rs
  let tens_rs_ab := abChannel img_lab_rs
  let tens_rs_ab := randint
  (tens_orig_l, tens_orig_ab, tens_rs_l, tens_rs_ab)

/-- The full observable result of `train env1 [(), ()] [()] true 2 0`: two
epochs over two unit batches with a one-batch held-out source. -/
def c6WitnessResult : TrainResult ℤ :=
  ⟨some 2, some 4, [(1, 0), (2, 1), (1, 2), (2, 3)], [(2, 2), (2, 4)], [true, false], 4⟩

/-! ## Lemmas about the embedded definitions -/

lemma pre_blocks_spatial_eighth (m h : ℕ) (hh : 1 ≤ h) :
    (preBlocks m).foldl (fun a l => l.spatial a) (8 * h) = h := by
  simp only [preBlocks, build_basic_block, ParamSpec.get, ParamSpec.shift,
    List.foldl_append, List.foldl_cons, List.foldl_nil, LayerSpec.spatial,
    List.getD, List.get?, Option.getD, List.tail_cons, conv2dOut, convT2dOut]
  omega

lemma pre_blocks_spatial_pos (m H : ℕ) :
    1 ≤ (preBlocks m).foldl (fun a l => l.spatial a) H := by
  simp only [preBlocks, build_basic_block, ParamSpec.get, ParamSpec.shift,
    List.foldl_append, List.foldl_cons, List.foldl_nil, LayerSpec.spatial,
    List.getD, List.get?, Option.getD, List.tail_cons, conv2dOut, convT2dOut]
  omega

lemma extra_layers_spatial_id (m N H : ℕ) (hH : 1 ≤ H) :
    (extraLayers m N).foldl (fun a l => l.spatial a) H = H := by
  induction N with
  | zero => rfl
  | succ n ih =>
    have hblk : (build_basic_block [512 * m, 512 * m, 512 * m, 512 * m]
        (.scalar 3) (.scalar 1) (.scalar 1) (.scalar 1) []).foldl
        (fun a l => l.spatial a) H = H := by
      simp only [build_basic_block, ParamSpec.get, ParamSpec.shift,
        List.foldl_cons, List.foldl_nil, LayerSpec.spatial,
        List.getD, List.get?, Option.getD, List.tail_cons, conv2dOut, convT2dOut]
      omega
    simp only [extraLayers, List.replicate_succ, List.flatten_cons, List.foldl_append] at ih ⊢
    rw [hblk]
    exact ih

lemma post_blocks_spatial_times_eight (m H : ℕ) (hH : 1 ≤ H) :
    (postBlocks m).foldl (fun a l => l.spatial a) H = 8 * H := by
  simp only [postBlocks, build_basic_block, ParamSpec.get, ParamSpec.shift,
    List.foldl_append, List.foldl_cons, List.foldl_nil, LayerSpec.spatial,
    List.getD, List.get?, Option.getD, List.tail_cons, conv2dOut, convT2dOut]
  omega

lemma netSpatial_decompose (m N H : ℕ) :
    netSpatial m N H = (postBlocks m).foldl (fun a l => l.spatial a)
      ((extraLayers m N).foldl (fun a l => l.spatial a)
        ((preBlocks m).foldl (fun a l => l.spatial a) H)) := by
  simp only [netSpatial, netLayers, List.foldl_append]

lemma netSpatial_eq_eight_mul (m N H : ℕ) :
    netSpatial m N H = 8 * (preBlocks m).foldl (fun a l => l.spatial a) H := by
  rw [netSpatial_decompose, extra_layers_spatial_id m N _ (pre_blocks_spatial_pos m H),
    post_blocks_spatial_times_eight m _ (pre_blocks_spatial_pos m H)]

lemma runBatches_log_keys {P B : Type} (env : TrainEnv P B) (mode : Bool) :
    ∀ (bs : List B) (p : P) (i : ℕ),
      ((runBatches env mode true p i bs).2).map Prod.fst = List.range' (i + 1) bs.length := by
  intro bs
  induction bs with
  | nil => intro p i; rfl
  | cons b bs ih =>
    intro p i
    simp only [runBatches, if_true, List.length_cons, List.map_append, List.map_cons,
      List.map_nil, ih, List.singleton_append]
    rw [List.range'_succ]

lemma runEpoch_ok_trainLog {P B : Type} (env : TrainEnv P B) (td ed : List B)
    {st st' : LoopState P} (h : runEpoch env td ed true st = .ok st') :
    st'.trainLog = st.trainLog ++ (runBatches env st.net.training true st.net.params 0 td).2 := by
  simp only [runEpoch] at h
  split at h
  · cases h
  · split at h
    · cases h
    · cases h
      rfl

lemma runEpochs_trainLog_keys {P B : Type} (env : TrainEnv P B) (td ed : List B) :
    ∀ (n : ℕ) (st st' : LoopState P), runEpochs env td ed true n st = .ok st' →
      st'.trainLog.map Prod.fst =
        st.trainLog.map Prod.fst ++ (List.replicate n (List.range' 1 td.length)).flatten := by
  intro n
  induction n with
  | zero =>
    intro st st' h
    cases h
    simp
  | succ n ih =>
    intro st st' h
    unfold runEpochs at h
    split at h
    · cases h
    · next st1 heq =>
      have h1 := runEpoch_ok_trainLog env td ed heq
      have h2 := ih st1 st' h
      rw [h2, h1, List.map_append, runBatches_log_keys]
      simp [List.replicate_succ, List.append_assoc]

lemma getItem_ok_length {l : List ℚ} {i : ℕ} {d : ℚ} (h : getItem l i = .ok d) :
    i < l.length := by
  unfold getItem at h
  cases hg : l.get? i with
  | none => rw [hg] at h; cases h
  | some v =>
    rcases List.get?_eq_some.mp hg with ⟨hlt, _⟩
    exact hlt

lemma getItem_ok_of_lt {l : List ℚ} {i : ℕ} (h : i < l.length) :
    ∃ d, getItem l i = .ok d := by
  unfold getItem
  cases hg : l.get? i with
  | none => exact absurd (List.get?_eq_none.mp hg) (by omega)
  | some v => exact ⟨v, rfl⟩

lemma bind_isOk {ε α β : Type} {e : Except ε α} {f : α → Except ε β}
    (h : isOk (e.bind f) = true) : ∃ d, e = .ok d ∧ isOk (f d) = true := by
  cases e with
  | error err => simp [Except.bind, isOk] at h
  | ok d => exact ⟨d, rfl, h⟩

/-! ## The verified claims -/

/-- Claim C1 (amended).  For every channel multiplier `m ≥ 1`, every
extra-block count `N` and every input spatial size `H`, the forward pass
outputs exactly 313 channels, the output shape is identical for every choice
of `N`, and the output spatial size equals the input spatial size exactly
when that size is a positive multiple of 8: the forward pass always produces
`8 × (size after block 7)`, so equality holds iff `H` is divisible by 8 and
positive.  (As stated — equality for *every* accepted input — the spatial
part of the claim fails: see the counterexample at input size 4.) -/
theorem modified_forward_shape (m N H : ℕ) (hm : 1 ≤ m) :
    netOutChannels m N = 313 ∧
      (netSpatial m N H = H ↔ H % 8 = 0 ∧ 1 ≤ H) ∧
      netSpatial m N H = netSpatial m 0 H := by
  refine ⟨?_, ⟨?_, ?_⟩, ?_⟩
  · simp only [netOutChannels, netLayers, List.foldl_append]
    rfl
  · intro he
    have hp := pre_blocks_spatial_pos m H
    rw [netSpatial_eq_eight_mul] at he
    omega
  · rintro ⟨h8, h1⟩
    have hH : H = 8 * (H / 8) := by omega
    have h18 : 1 ≤ H / 8 := by omega
    rw [hH, netSpatial_eq_eight_mul, pre_blocks_spatial_eighth m (H / 8) h18]
  · rw [netSpatial_eq_eight_mul, netSpatial_eq_eight_mul]

/-- Witness for claim C1: the hypothesis holds at `m = 1`, `N = 2`, `H = 8`. -/
theorem modified_forward_shape_witness :
    1 ≤ 1 ∧
      (netOutChannels 1 2 = 313 ∧
        (netSpatial 1 2 8 = 8 ↔ 8 % 8 = 0 ∧ 1 ≤ 8) ∧
        netSpatial 1 2 8 = netSpatial 1 0 8) :=
  ⟨Nat.le_refl 1, modified_forward_shape 1 2 8 (Nat.le_refl 1)⟩

set_option maxRecDepth 4000 in
/-- Counterexample for claim C1 as stated: the network accepts a 4×4 input
(`m = 1`, `N = 0`, every intermediate size stays ≥ 1) but produces an 8×8
output — the output spatial size does not equal the input's. -/
theorem modified_forward_shape_cex : netSpatial 1 0 4 = 8 ∧ netSpatial 1 0 4 ≠ 4 := by
  constructor
  · decide
  · decide

/-- Claim C2.  Over two epochs where the first epoch attains the smaller
evaluation loss, `train` does return the minimum (`some 1`, from epoch 1) as
the best loss — but the returned snapshot holds the parameter value `2`
reached at the end of epoch 2, not the value `1` the parameters had at the end
of the best epoch (compare the single-epoch run): `best_model = net.state_dict()`
aliases the live tensors that `optimizer.step()` keeps mutating. -/
theorem train_best_model_aliasing :
    train env1 [()] [()] false 2 (0:ℤ) =
      .ok { bestEvalLoss := some 1, bestModel := some 2, trainLog := [], evalLog := [],
            epochModes := [true, false], finalParams := 2 } ∧
    train env1 [()] [()] false 1 (0:ℤ) =
      .ok { bestEvalLoss := some 1, bestModel := some 1, trainLog := [], evalLog := [],
            epochModes := [true], finalParams := 1 } ∧
    (2 : ℤ) ≠ 1 := by
  refine ⟨?_, ?_, by decide⟩
  · simp [train, runEpochs, runEpoch, runBatches, eval, env1, improvesOn]
  · simp [train, runEpochs, runEpoch, runBatches, eval, env1, improvesOn]

/-- Claim C3.  On an empty batch source, `eval` raises `ZeroDivisionError`
from `running_loss/len(dataloader)` instead of reporting a "no data"
condition, and `train` with an empty held-out source propagates that
exception instead of returning an absent best-model snapshot. -/
theorem eval_empty_source_zero_division :
    (eval env1 ⟨0, true⟩ ([] : List Unit)).1 = .error .zeroDivision ∧
    train env1 [()] ([] : List Unit) false 1 0 = .error .zeroDivision := by
  constructor
  · rfl
  · simp [train, runEpochs, runEpoch, runBatches, eval, env1, improvesOn]

/-- Claim C4.  For every valid configuration (multiplier ≥ 1, any extra-block
count) the network's classification head has 313 channels, and at every
spatial location the softmax of the score vector is a probability
distribution: entries non-negative, summing to 1 over the bin dimension. -/
theorem softmax_probability_distribution (m N : ℕ) (hm : 1 ≤ m) (x : Fin 313 → ℝ) :
    netOutChannels m N = 313 ∧ (∀ i, 0 ≤ softmax x i) ∧ ∑ i, softmax x i = 1 := by
  have hS : 0 < ∑ j, Real.exp (x j) :=
    Finset.sum_pos (fun j _ => Real.exp_pos _) Finset.univ_nonempty
  refine ⟨?_, fun i => div_nonneg (Real.exp_pos _).le hS.le, ?_⟩
  · simp only [netOutChannels, netLayers, List.foldl_append]
    rfl
  · simp only [softmax]
    rw [← Finset.sum_div, div_self hS.ne']

/-- Witness for claim C4 at `m = 1`, `N = 0` and the all-zero score vector. -/
theorem softmax_probability_distribution_witness :
    1 ≤ 1 ∧ (netOutChannels 1 0 = 313 ∧ (∀ i, 0 ≤ softmax (fun _ => 0) i) ∧
      ∑ i, softmax (fun _ => 0) i = 1) :=
  ⟨Nat.le_refl 1, softmax_probability_distribution 1 0 (Nat.le_refl 1) (fun _ => 0)⟩

/-- Claim C5.  In a two-epoch run the network processes the first epoch's
batches in training mode but the second epoch's batches in inference mode:
`net.train()` runs only once before the epoch loop, and after `eval` switches
the network to inference mode nothing switches it back. -/
theorem train_mode_not_restored :
    (train env1 [()] [()] false 2 (0:ℤ)).map TrainResult.epochModes =
      .ok [true, false] := by
  simp [train, runEpochs, runEpoch, runBatches, eval, env1, improvesOn, Except.map]

/-- Counterexample for claim C6 as stated: over two epochs of two batches the
train-loss records carry keys `[1, 2, 1, 2]` — the `enumerate` counter restarts
every epoch, so the key sequence of the whole run is not strictly increasing. -/
theorem train_log_keys_reset :
    (train env1 [(), ()] [()] true 2 (0:ℤ)).map
        (fun r => r.trainLog.map Prod.fst) = .ok [1, 2, 1, 2] ∧
      ¬ List.Pairwise (· < ·) ([1, 2, 1, 2] : List ℕ) := by
  constructor
  · simp [train, runEpochs, runEpoch, runBatches, eval, env1, improvesOn, Except.map]
  · decide

/-- Claim C6 (amended).  The per-batch losses are appended keyed by the
per-epoch batch counter: for every successful run with a logger, the key
sequence of the train-loss log is `n_epochs` concatenated copies of
`1, …, len(trainloader)` — strictly increasing within each epoch and
restarting at 1 at every epoch boundary. -/
theorem train_log_keys_per_epoch {P B : Type} (env : TrainEnv P B) (td ed : List B)
    (n : ℕ) (p0 : P) (r : TrainResult P) (h : train env td ed true n p0 = .ok r) :
    r.trainLog.map Prod.fst = (List.replicate n (List.range' 1 td.length)).flatten := by
  unfold train at h
  split at h
  · cases h
  · next st heq =>
    cases h
    simpa using runEpochs_trainLog_keys env td ed n _ st heq

/-- Witness for claim C6: a concrete two-epoch, two-batch run with logger. -/
theorem train_log_keys_per_epoch_witness :
    train env1 [(), ()] [()] true 2 (0:ℤ) = .ok c6WitnessResult ∧
    c6WitnessResult.trainLog.map Prod.fst = (List.replicate 2 (List.range' 1 2)).flatten := by
  have h : train env1 [(), ()] [()] true 2 (0:ℤ) = .ok c6WitnessResult := by
    simp [train, runEpochs, runEpoch, runBatches, eval, env1, c6WitnessResult, improvesOn]
    norm_num
  exact ⟨h, train_log_keys_per_epoch env1 [(), ()] [()] 2 0 c6WitnessResult h⟩

set_option maxRecDepth 4000 in
/-- Counterexample for claim C7 as stated: an 11-entry dropout list (one more
than the 10 entries the constructor reads) does *not* fail — construction
succeeds, silently ignoring the extra entry. -/
theorem init_overlong_dropout_accepted :
    isOk (ModifiedColorizer_init ⟨List.replicate 11 0, 0, 1⟩) = true ∧
    (List.replicate 11 (0:ℚ)).length ≠ 10 := by
  constructor
  · decide
  · decide

/-- Claim C7 (amended).  Construction succeeds exactly when the dropout list
has at least 10 entries: shorter lists fail at construction time with an
index error (never deferred to forward time), while longer lists are accepted
with the entries beyond index 9 silently unused. -/
theorem init_ok_iff_dropout_length (config : ModelConfig) :
    isOk (ModifiedColorizer_init config) = true ↔ 10 ≤ config.dropoutLayers.length := by
  constructor
  · intro h
    unfold ModifiedColorizer_init at h
    obtain ⟨d0, h0, h⟩ := bind_isOk h
    obtain ⟨d1, h1, h⟩ := bind_isOk h
    obtain ⟨d2, h2, h⟩ := bind_isOk h
    obtain ⟨d3, h3, h⟩ := bind_isOk h
    obtain ⟨d4, h4, h⟩ := bind_isOk h
    obtain ⟨d5, h5, h⟩ := bind_isOk h
    obtain ⟨d6, h6, h⟩ := bind_isOk h
    obtain ⟨d7, h7, h⟩ := bind_isOk h
    obtain ⟨d8, h8, h⟩ := bind_isOk h
    obtain ⟨d9, h9, h⟩ := bind_isOk h
    exact getItem_ok_length h9
  · intro h
    obtain ⟨d0, h0⟩ := getItem_ok_of_lt (show 0 < config.dropoutLayers.length by omega)
    obtain ⟨d1, h1⟩ := getItem_ok_of_lt (show 1 < config.dropoutLayers.length by omega)
    obtain ⟨d2, h2⟩ := getItem_ok_of_lt (show 2 < config.dropoutLayers.length by omega)
    obtain ⟨d3, h3⟩ := getItem_ok_of_lt (show 3 < config.dropoutLayers.length by omega)
    obtain ⟨d4, h4⟩ := getItem_ok_of_lt (show 4 < config.dropoutLayers.length by omega)
    obtain ⟨d5, h5⟩ := getItem_ok_of_lt (show 5 < config.dropoutLayers.length by omega)
    obtain ⟨d6, h6⟩ := getItem_ok_of_lt (show 6 < config.dropoutLayers.length by omega)
    obtain ⟨d7, h7⟩ := getItem_ok_of_lt (show 7 < config.dropoutLayers.length by omega)
    obtain ⟨d8, h8⟩ := getItem_ok_of_lt (show 8 < config.dropoutLayers.length by omega)
    obtain ⟨d9, h9⟩ := getItem_ok_of_lt (show 9 < config.dropoutLayers.length by omega)
    simp [ModifiedColorizer_init, h0, h1, h2, h3, h4, h5, h6, h7, h8, h9, Except.bind, isOk]

/-- Claim C8.  On a non-empty batch source, two consecutive `eval` runs with
no intervening update return the same loss, and neither run changes the
network's parameters (the embedding of `eval` has no parameter-writing
operation, mirroring `torch.no_grad()` and the absence of any optimizer
call). -/
theorem eval_no_side_effects {P B : Type} (env : TrainEnv P B) (net : NetState P)
    (data : List B) (h : data ≠ []) :
    ∃ l : ℚ, (eval env net data).1 = .ok l ∧
      (eval env (eval env net data).2 data).1 = .ok l ∧
      (eval env net data).2.params = net.params ∧
      (eval env (eval env net data).2 data).2.params = net.params := by
  have hlen : data.length ≠ 0 := fun hc => h (List.length_eq_zero.mp hc)
  refine ⟨(data.foldl (fun acc b =>
      acc + env.lossFn false net.params b / (env.bsize b : ℚ)) 0) / (data.length : ℚ),
    ?_, ?_, rfl, rfl⟩
  · simp [eval, hlen]
  · simp [eval, hlen]

/-- Witness for claim C8: the concrete environment, a one-batch source. -/
theorem eval_no_side_effects_witness : (([()] : List Unit) ≠ []) ∧
    ∃ l : ℚ, (eval env1 ⟨0, true⟩ [()]).1 = .ok l ∧
      (eval env1 (eval env1 ⟨0, true⟩ [()]).2 [()]).1 = .ok l ∧
      (eval env1 ⟨0, true⟩ [()]).2.params = (0:ℤ) ∧
      (eval env1 (eval env1 ⟨0, true⟩ [()]).2 [()]).2.params = (0:ℤ) :=
  ⟨by decide, eval_no_side_effects env1 ⟨0, true⟩ [()] (by decide)⟩

/-- Claim C9.  The fourth output of `preprocess_img` is always the
`torch.randint` draw, never the chrominance of the Lab conversion of the
resized image: with identity conversions, the true resized chrominance of
image `3` is `3`, yet the returned target is the random draw `7`. -/
theorem preprocess_img_overwrites_targets :
    (∀ (img r : ℤ), (preprocess_img (id : ℤ → ℤ) id id id r img).2.2.2 = r) ∧
    (preprocess_img (id : ℤ → ℤ) id id id 7 3).2.2.2 ≠ id (id (id (3:ℤ))) :=
  ⟨fun _ _ => rfl, by decide⟩

/-- Claim C10.  With `n_epochs = 0` the training loop runs no batch, updates
no parameter, appends nothing to the logger, and returns the initial
`np.inf` best loss (modelled `none`) with an absent best-model snapshot. -/
theorem train_zero_epochs {P B : Type} (env : TrainEnv P B) (td ed : List B)
    (hl : Bool) (p0 : P) :
    train env td ed hl 0 p0 = .ok ⟨none, none, [], [], [], p0⟩ := rfl

end Colorization

